import Mathlib

/-!
Verification development for the particle-morphing core of the
christmas-tree scene: the per-frame transition controller
(exponential damping of progress / imageMix / visibility scalars),
the image-to-points candidate extractor, the image-buffer install
guard of the foliage layer, and the App-level install policy for
extracted point sets.

Shallow embedding conventions:
* transition scalars and the damping arithmetic live in ℝ with
  Real.exp (the source calls Math.exp);
* the image pixel pipeline lives in ℚ (pixel bytes are naturals,
  luma weights are exact rationals), so that concrete images can be
  evaluated by `decide`;
* the source's Promise/async structure is modelled by making the
  external effects (image decode, 2d-context acquisition, the stream
  of Math.random() draws) explicit inputs of the pure function.
-/

/-- src/types.ts: `type InteractionMode = SCATTERED | TREE | IMAGE`.
The spec calls TREE "FORMED". -/
inductive InteractionMode : Type
  | TREE
  | SCATTERED
  | IMAGE
deriving DecidableEq, Repr

open InteractionMode

/-- three.js MathUtils.lerp, as used by damp:
`lerp(x, y, t) = (1 - t) * x + t * y`. -/
noncomputable def lerp (x y t : ℝ) : ℝ := (1 - t) * x + t * y

/-- three.js MathUtils.damp, the smoothing primitive every layer's
useFrame calls: `damp(x, y, lambda, dt) = lerp(x, y, 1 - exp(-lambda * dt))`. -/
noncomputable def damp (x y lambda dt : ℝ) : ℝ :=
  lerp x y (1 - Real.exp (-(lambda * dt)))

/-- Modelled from the spec (section 4.3 update rule), for the refinement
claim only: `value ← target + (value − target) × exp(−rate × deltaTime)`. -/
noncomputable def specDampUpdate (value target rate deltaTime : ℝ) : ℝ :=
  target + (value - target) * Real.exp (-(rate * deltaTime))

/-- FoliageLayer useFrame (src/unnamed/part_000 line 80):
`const targetProgress = mode === 'SCATTERED' ? 0 : 1`. -/
def foliageProgressTarget (mode : InteractionMode) : ℝ :=
  if mode = SCATTERED then 0 else 1

/-- FoliageLayer useFrame (src/unnamed/part_000 line 84):
`const targetImageMix = mode === 'IMAGE' ? 1 : 0`. -/
def foliageImageMixTarget (mode : InteractionMode) : ℝ :=
  if mode = IMAGE then 1 else 0

/-- MorphingInstancedMesh useFrame (src/components/GoldSpiralTree.tsx line 82):
`const target = mode === 'TREE' ? 1 : 0`. -/
def morphProgressTarget (mode : InteractionMode) : ℝ :=
  if mode = TREE then 1 else 0

/-- MorphingInstancedMesh useFrame (src/components/GoldSpiralTree.tsx line 86):
`const targetVis = mode === 'IMAGE' ? 0 : 1`. -/
def morphVisibilityTarget (mode : InteractionMode) : ℝ :=
  if mode = IMAGE then 0 else 1

/-- GiftBox useFrame (src/components/GoldSpiralTree.tsx line 146):
`const target = mode === 'TREE' ? 1 : 0`. -/
def giftProgressTarget (mode : InteractionMode) : ℝ :=
  if mode = TREE then 1 else 0

/-- GiftBox useFrame (src/components/GoldSpiralTree.tsx line 149):
`const targetVis = mode === 'IMAGE' ? 0 : 1`. -/
def giftVisibilityTarget (mode : InteractionMode) : ℝ :=
  if mode = IMAGE then 0 else 1

/-- GoldParticleLayer useFrame (src/components/GoldParticleLayer.tsx line 64):
`const target = mode === 'TREE' ? 1 : 0`. -/
def goldProgressTarget (mode : InteractionMode) : ℝ :=
  if mode = TREE then 1 else 0

/-- Per-frame scalar state of FoliageLayer:
progressRef and imageMixRef (src/unnamed/part_000 lines 18, 19). -/
structure FoliageState where
  progress : ℝ
  imageMix : ℝ

/-- FoliageLayer useFrame transition logic (src/unnamed/part_000 lines 78 to 92):
progress is damped toward its target at rate 2.0, imageMix at rate 1.5. -/
noncomputable def foliageUseFrame (mode : InteractionMode) (delta : ℝ)
    (s : FoliageState) : FoliageState :=
  { progress := damp s.progress (foliageProgressTarget mode) 2 delta
    imageMix := damp s.imageMix (foliageImageMixTarget mode) 1.5 delta }

/-- Per-frame scalar state of MorphingInstancedMesh:
progress and visibilityScale refs (src/components/GoldSpiralTree.tsx lines 52, 54). -/
structure MorphState where
  progress : ℝ
  visibilityScale : ℝ

/-- MorphingInstancedMesh useFrame transition logic
(src/components/GoldSpiralTree.tsx lines 79 to 88):
progress damped at rate 2.5, visibilityScale at rate 3.0. -/
noncomputable def morphUseFrame (mode : InteractionMode) (delta : ℝ)
    (s : MorphState) : MorphState :=
  { progress := damp s.progress (morphProgressTarget mode) 2.5 delta
    visibilityScale := damp s.visibilityScale (morphVisibilityTarget mode) 3 delta }

/-- Per-frame scalar state of GiftBox:
progress and visScale refs (src/components/GoldSpiralTree.tsx lines 140, 141). -/
structure GiftState where
  progress : ℝ
  visScale : ℝ

/-- GiftBox useFrame transition logic (src/components/GoldSpiralTree.tsx
lines 143 to 153): progress damped at rate 2, visScale at rate 3. -/
noncomputable def giftUseFrame (mode : InteractionMode) (delta : ℝ)
    (s : GiftState) : GiftState :=
  { progress := damp s.progress (giftProgressTarget mode) 2 delta
    visScale := damp s.visScale (giftVisibilityTarget mode) 3 delta }

/-- Per-frame scalar state of GoldParticleLayer: only progressRef
(src/components/GoldParticleLayer.tsx line 14).  The component holds no
visibility scalar. -/
structure GoldParticleState where
  progress : ℝ

/-- GoldParticleLayer useFrame (src/components/GoldParticleLayer.tsx
lines 63 to 71): the only per-frame state update is
`progressRef.current = THREE.MathUtils.damp(progressRef.current, target, 2.0, delta)`
with `target = mode === 'TREE' ? 1 : 0`.  No visibility scalar is updated. -/
noncomputable def goldParticleUseFrame (mode : InteractionMode) (delta : ℝ)
    (s : GoldParticleState) : GoldParticleState :=
  { progress := damp s.progress (goldProgressTarget mode) 2 delta }

/-- The visibility scale GoldParticleLayer applies to its rendered points.
In the source there is none: the useFrame (lines 63 to 71) updates only
progressRef, the vertex shader point size `(40.0 * aRandom + 40.0) * (20.0 / -mvPosition.z)`
contains no visibility factor, and no scale is ever set on the points
object.  The layer's applied visibility is therefore constantly 1,
whatever the mode. -/
def goldParticleVisibilityFactor (_mode : InteractionMode) : ℝ := 1

/-- Fold of FoliageLayer's useFrame over a sequence of per-frame
(mode, deltaTime) inputs. -/
noncomputable def runFoliage (inputs : List (InteractionMode × ℝ))
    (s : FoliageState) : FoliageState :=
  inputs.foldl (fun st i => foliageUseFrame i.1 i.2 st) s

/-- Fold of MorphingInstancedMesh's useFrame over per-frame inputs. -/
noncomputable def runMorph (inputs : List (InteractionMode × ℝ))
    (s : MorphState) : MorphState :=
  inputs.foldl (fun st i => morphUseFrame i.1 i.2 st) s

/-- Fold of GiftBox's useFrame over per-frame inputs. -/
noncomputable def runGift (inputs : List (InteractionMode × ℝ))
    (s : GiftState) : GiftState :=
  inputs.foldl (fun st i => giftUseFrame i.1 i.2 st) s

/-- Fold of GoldParticleLayer's useFrame over per-frame inputs. -/
noncomputable def runGold (inputs : List (InteractionMode × ℝ))
    (s : GoldParticleState) : GoldParticleState :=
  inputs.foldl (fun st i => goldParticleUseFrame i.1 i.2 st) s

/-- Fold of a single damped scalar toward a fixed target over a list of
deltaTime values (the shape every layer's scalar update takes when the
mode is held constant). -/
noncomputable def dampRun (target lambda : ℝ) (dts : List ℝ) (v : ℝ) : ℝ :=
  dts.foldl (fun x d => damp x target lambda d) v

/-!  Image candidate extractor (src/components/LuxuryEnvironment.tsx,
`imageToPoints`, lines 79 to 183).

The browser effects are made explicit inputs:
* `decoded` is the result of image decode: `none` models `img.onerror`,
  `some src` models `img.onload` with the decoded image's natural
  dimensions; the working raster dimensions (width 400, height floored
  from the aspect ratio) are then computed by the model itself, as the
  source does at lines 86 and 87;
* `rasterData` is the byte content `drawImage`/`getImageData` would hand
  back at that working resolution (the browser's resampling is the
  external effect, the dimensions are not);
* `ctxOk = false` models `canvas.getContext` returning null;
* `rand i` is the i-th `Math.random()` draw of the sampling loop and
  `jit i` the i-th draw of the depth jitter, both in [0, 1);
pixel bytes are naturals (0 to 255), coordinates are naturals, and all
arithmetic is exact in ℚ.

The call can fail to settle: when the floored working height is 0 (an
image wider than 400 times its height), `ctx.getImageData(0, 0, 400, 0)`
throws IndexSizeError inside the onload handler and the promise never
resolves.  The model returns `Option (List ℚ)`: `some buf` when the
promise resolves `buf`, `none` when the handler throws and the promise
never settles. -/

/-- The raster handed back by `ctx.getImageData(0, 0, width, height)`:
`data idx` is the idx-th byte of the RGBA array. -/
structure ImageData where
  width : ℕ
  height : ℕ
  data : ℕ → ℕ

/-- `getLum` helper (lines 104 to 108): out-of-range coordinates read as
luminance 255, in-range ones as `0.299*R + 0.587*G + 0.114*B`.
(The source also tests `x < 0 || y < 0`; with ℕ coordinates that branch
is unrepresentable.) -/
def getLum (img : ImageData) (x y : ℕ) : ℚ :=
  if x < img.width ∧ y < img.height then
    let idx := (y * img.width + x) * 4
    0.299 * (img.data idx : ℚ) + 0.587 * (img.data (idx + 1) : ℚ)
      + 0.114 * (img.data (idx + 2) : ℚ)
  else 255

/-- `getAlpha` helper (lines 111 to 114): out-of-range coordinates read
as alpha 0. -/
def getAlpha (img : ImageData) (x y : ℕ) : ℕ :=
  if x < img.width ∧ y < img.height then img.data ((y * img.width + x) * 4 + 3)
  else 0

/-- Candidate classification of one pixel (lines 117 to 139):
skip if `alpha < 50`; otherwise a candidate iff `isDark` (lum < 180) or
`isEdge` (luminance differs from the right or bottom neighbour by more
than 15). -/
def isCandidate (img : ImageData) (x y : ℕ) : Bool :=
  let lum := getLum img x y
  let alpha := getAlpha img x y
  if alpha < 50 then false
  else
    let isDark := decide (lum < 180)
    let isEdge := decide (15 < |lum - getLum img (x + 1) y|)
      || decide (15 < |lum - getLum img x (y + 1)|)
    isDark || isEdge

/-- The `candidates` array built by the double scan loop (lines 101 and
117 to 140), as the list of (x, y) pixel pairs in scan order (y outer,
x inner). -/
def candidateList (img : ImageData) : List (ℕ × ℕ) :=
  (List.range img.height).flatMap fun y =>
    (List.range img.width).filterMap fun x =>
      if isCandidate img x y then some (x, y) else none

/-- One sampled output point (lines 154 to 172): pick a uniformly random
candidate pair (`Math.floor(Math.random() * (candidates.length / 2)) * 2`
on the flat array is index `floor(rand i * cands.length)` into the pair
list), normalize to centered coordinates, scale by 16, invert and
aspect-correct the vertical axis, shift up by 2, and jitter depth by
`(Math.random() - 0.5) * 0.1`. -/
def samplePoint (img : ImageData) (cands : List (ℕ × ℕ)) (rand jit : ℕ → ℚ)
    (i : ℕ) : List ℚ :=
  let index := (Int.floor (rand i * (cands.length : ℚ))).toNat
  let p := cands.getD index (0, 0)
  let nx := (p.1 : ℚ) / (img.width : ℚ) - 0.5
  let ny := (p.2 : ℚ) / (img.height : ℚ) - 0.5
  [nx * 16, -ny * 16 * ((img.height : ℚ) / (img.width : ℚ)) + 2,
    (jit i - 0.5) * 0.1]

/-- The natural dimensions of a successfully decoded image, as read off
`img.height` and `img.width` in the onload handler. -/
structure SourceImage where
  naturalWidth : ℕ
  naturalHeight : ℕ

/-- The working raster height (line 87):
`Math.floor(width * (img.height / img.width))` with `width = 400`.  For
natural numbers the floored quotient is ℕ division.  (A decoded image
always has positive dimensions; ℕ division by zero also yields 0, which
the model treats like the other height-0 rasters.) -/
def workingHeight (src : SourceImage) : ℕ :=
  (400 * src.naturalHeight) / src.naturalWidth

/-- `imageToPoints` (lines 79 to 183).  `img.onerror` and a null 2d
context resolve the freshly zeroed `new Float32Array(targetCount * 3)`;
then `ctx.getImageData(0, 0, 400, height)` throws IndexSizeError when
the floored working height is 0, so the promise never settles (`none`);
otherwise an empty candidate set resolves the zero buffer and the
success path fills all `targetCount` triples by independent random
sampling from the scanned raster. -/
def imageToPoints (decoded : Option SourceImage) (rasterData : ℕ → ℕ)
    (ctxOk : Bool) (targetCount : ℕ) (rand jit : ℕ → ℚ) : Option (List ℚ) :=
  match decoded with
  | none => some (List.replicate (targetCount * 3) 0)
  | some src =>
    if ctxOk = false then some (List.replicate (targetCount * 3) 0)
    else
      if workingHeight src = 0 then none
      else
        let img : ImageData :=
          { width := 400, height := workingHeight src, data := rasterData }
        let cands := candidateList img
        if cands.length = 0 then some (List.replicate (targetCount * 3) 0)
        else some ((List.range targetCount).flatMap (samplePoint img cands rand jit))

/-- FoliageLayer's image-attribute install (src/unnamed/part_000,
useEffect lines 60 to 76): `dataToUse` starts as the tree positions and
is replaced by `imagePoints` only when it is present and
`imagePoints.length === count * 3`. -/
def foliageImageAttr (imagePoints : Option (List ℚ)) (treePositions : List ℚ)
    (count : ℕ) : List ℚ :=
  match imagePoints with
  | some ip => if ip.length = count * 3 then ip else treePositions
  | none => treePositions

/-- The validity scan App runs on an extraction result
(src/unnamed/part_002 lines 40 to 46 and 64 to 71): a stride-3 loop over
the buffer that reports true as soon as one of `points[i]`,
`points[i+1]`, `points[i+2]` is non-zero. -/
def hasValidPoints (points : List ℚ) : Bool :=
  (List.range points.length).any fun i =>
    decide (i % 3 = 0) &&
      (decide (points.getD i 0 ≠ 0) || decide (points.getD (i + 1) 0 ≠ 0)
        || decide (points.getD (i + 2) 0 ≠ 0))

/-- App's install policy for an extraction result (src/unnamed/part_002
lines 48 to 53 and 73 to 77): `setImagePoints(points)` runs only when
`hasValidPoints`; otherwise the previously installed value is kept. -/
def installImagePoints (current : Option (List ℚ)) (points : List ℚ) :
    Option (List ℚ) :=
  if hasValidPoints points then some points else current

/-!  NaN-tracking float model for the non-finite deltaTime claim.
A value of type `Option ℝ` is a finite double (`some r`) or NaN
(`none`); each IEEE operation yields NaN as soon as one operand is NaN
(`0 * NaN`, `exp NaN` and `NaN + x` are all NaN). -/

/-- IEEE multiplication with NaN propagation. -/
noncomputable def fpMul (a b : Option ℝ) : Option ℝ :=
  a.bind fun x => b.map fun y => x * y

/-- IEEE addition with NaN propagation. -/
noncomputable def fpAdd (a b : Option ℝ) : Option ℝ :=
  a.bind fun x => b.map fun y => x + y

/-- IEEE subtraction with NaN propagation. -/
noncomputable def fpSub (a b : Option ℝ) : Option ℝ :=
  a.bind fun x => b.map fun y => x - y

/-- IEEE negation with NaN propagation. -/
noncomputable def fpNeg (a : Option ℝ) : Option ℝ := a.map fun x => -x

/-- Math.exp with NaN propagation (`Math.exp(NaN)` is NaN). -/
noncomputable def fpExp (a : Option ℝ) : Option ℝ := a.map Real.exp

/-- three.js MathUtils.lerp on NaN-tracking doubles. -/
noncomputable def fpLerp (x y t : Option ℝ) : Option ℝ :=
  fpAdd (fpMul (fpSub (some 1) t) x) (fpMul t y)

/-- three.js MathUtils.damp on NaN-tracking doubles, exactly as the
source computes it: `lerp(x, y, 1 - exp(-lambda * dt))`. -/
noncomputable def fpDamp (x y lambda dt : Option ℝ) : Option ℝ :=
  fpLerp x y (fpSub (some 1) (fpExp (fpNeg (fpMul lambda dt))))

/-- FoliageLayer's useFrame scalar updates (src/unnamed/part_000 lines
78 to 92) on NaN-tracking doubles; the state is the pair
(progress, imageMix).  The source applies damp to the raw `delta` with
no finiteness check. -/
noncomputable def foliageUseFrameFP (mode : InteractionMode)
    (delta : Option ℝ) (s : Option ℝ × Option ℝ) : Option ℝ × Option ℝ :=
  (fpDamp s.1 (some (foliageProgressTarget mode)) (some 2) delta,
   fpDamp s.2 (some (foliageImageMixTarget mode)) (some 1.5) delta)

/-- The 2-pixel test image for the checkerboard scenario: a 2 wide,
1 tall opaque raster whose left pixel is white (255, 255, 255, 255) and
whose right pixel is light grey (200, 200, 200, 255).  Both luminances
(255 and 200) are at or above the dark-ink threshold 180. -/
def checkerboardImg : ImageData :=
  { width := 2
    height := 1
    data := fun idx => if idx < 4 then 255 else if idx = 7 then 255 else 200 }

/-!  Helper lemmas. -/

/-- Unfolding damp to the closed exponential form. -/
theorem damp_eq_exp_form (x y lambda dt : ℝ) :
    damp x y lambda dt =
      Real.exp (-(lambda * dt)) * x + (1 - Real.exp (-(lambda * dt))) * y := by
  unfold damp lerp
  ring

/-- One damp step toward a target in [0, 1] keeps a value of [0, 1]
inside [0, 1]: the new value is a convex combination of the old value
and the target. -/
theorem damp_mem_unit {x y lambda dt : ℝ} (hx0 : 0 ≤ x) (hx1 : x ≤ 1)
    (hy0 : 0 ≤ y) (hy1 : y ≤ 1) (hlam : 0 ≤ lambda) (hdt : 0 ≤ dt) :
    0 ≤ damp x y lambda dt ∧ damp x y lambda dt ≤ 1 := by
  have he0 : 0 < Real.exp (-(lambda * dt)) := Real.exp_pos _
  have he1 : Real.exp (-(lambda * dt)) ≤ 1 := by
    calc Real.exp (-(lambda * dt)) ≤ Real.exp 0 :=
          Real.exp_le_exp.mpr (by nlinarith)
      _ = 1 := Real.exp_zero
  rw [damp_eq_exp_form]
  constructor <;> nlinarith

/-- Every per-layer target constant lies in [0, 1]. -/
theorem foliageProgressTarget_mem (m : InteractionMode) :
    0 ≤ foliageProgressTarget m ∧ foliageProgressTarget m ≤ 1 := by
  cases m <;> simp [foliageProgressTarget]

theorem foliageImageMixTarget_mem (m : InteractionMode) :
    0 ≤ foliageImageMixTarget m ∧ foliageImageMixTarget m ≤ 1 := by
  cases m <;> simp [foliageImageMixTarget]

theorem morphProgressTarget_mem (m : InteractionMode) :
    0 ≤ morphProgressTarget m ∧ morphProgressTarget m ≤ 1 := by
  cases m <;> simp [morphProgressTarget]

theorem morphVisibilityTarget_mem (m : InteractionMode) :
    0 ≤ morphVisibilityTarget m ∧ morphVisibilityTarget m ≤ 1 := by
  cases m <;> simp [morphVisibilityTarget]

theorem giftProgressTarget_mem (m : InteractionMode) :
    0 ≤ giftProgressTarget m ∧ giftProgressTarget m ≤ 1 := by
  cases m <;> simp [giftProgressTarget]

theorem giftVisibilityTarget_mem (m : InteractionMode) :
    0 ≤ giftVisibilityTarget m ∧ giftVisibilityTarget m ≤ 1 := by
  cases m <;> simp [giftVisibilityTarget]

theorem goldProgressTarget_mem (m : InteractionMode) :
    0 ≤ goldProgressTarget m ∧ goldProgressTarget m ≤ 1 := by
  cases m <;> simp [goldProgressTarget]

/-- Folding mode-dependent damp steps with targets in [0, 1],
a nonnegative rate and nonnegative deltas keeps a scalar inside [0, 1]. -/
theorem foldl_damp_mem (g : InteractionMode → ℝ)
    (hg : ∀ m, 0 ≤ g m ∧ g m ≤ 1) {lambda : ℝ} (hlam : 0 ≤ lambda) :
    ∀ (inputs : List (InteractionMode × ℝ)), (∀ p ∈ inputs, 0 ≤ p.2) →
      ∀ {v : ℝ}, 0 ≤ v → v ≤ 1 →
        0 ≤ inputs.foldl (fun x p => damp x (g p.1) lambda p.2) v ∧
          inputs.foldl (fun x p => damp x (g p.1) lambda p.2) v ≤ 1 := by
  intro inputs
  induction inputs with
  | nil => intro _ v hv0 hv1; exact ⟨hv0, hv1⟩
  | cons p rest ih =>
    intro hd v hv0 hv1
    have hstep := damp_mem_unit hv0 hv1 (hg p.1).1 (hg p.1).2 hlam
      (hd p (List.mem_cons_self p rest))
    simp only [List.foldl_cons]
    exact ih (fun q hq => hd q (List.mem_cons_of_mem p hq)) hstep.1 hstep.2

/-- The progress component of the foliage fold is a scalar damp fold. -/
theorem runFoliage_progress (inputs : List (InteractionMode × ℝ)) (s : FoliageState) :
    (runFoliage inputs s).progress =
      inputs.foldl (fun x p => damp x (foliageProgressTarget p.1) 2 p.2) s.progress := by
  induction inputs generalizing s with
  | nil => rfl
  | cons p rest ih => exact ih _

/-- The imageMix component of the foliage fold is a scalar damp fold. -/
theorem runFoliage_imageMix (inputs : List (InteractionMode × ℝ)) (s : FoliageState) :
    (runFoliage inputs s).imageMix =
      inputs.foldl (fun x p => damp x (foliageImageMixTarget p.1) 1.5 p.2) s.imageMix := by
  induction inputs generalizing s with
  | nil => rfl
  | cons p rest ih => exact ih _

/-- The progress component of the instanced-mesh fold is a scalar damp fold. -/
theorem runMorph_progress (inputs : List (InteractionMode × ℝ)) (s : MorphState) :
    (runMorph inputs s).progress =
      inputs.foldl (fun x p => damp x (morphProgressTarget p.1) 2.5 p.2) s.progress := by
  induction inputs generalizing s with
  | nil => rfl
  | cons p rest ih => exact ih _

/-- The visibilityScale component of the instanced-mesh fold is a scalar
damp fold. -/
theorem runMorph_visibilityScale (inputs : List (InteractionMode × ℝ)) (s : MorphState) :
    (runMorph inputs s).visibilityScale =
      inputs.foldl (fun x p => damp x (morphVisibilityTarget p.1) 3 p.2) s.visibilityScale := by
  induction inputs generalizing s with
  | nil => rfl
  | cons p rest ih => exact ih _

/-- The progress component of the gift-box fold is a scalar damp fold. -/
theorem runGift_progress (inputs : List (InteractionMode × ℝ)) (s : GiftState) :
    (runGift inputs s).progress =
      inputs.foldl (fun x p => damp x (giftProgressTarget p.1) 2 p.2) s.progress := by
  induction inputs generalizing s with
  | nil => rfl
  | cons p rest ih => exact ih _

/-- The visScale component of the gift-box fold is a scalar damp fold. -/
theorem runGift_visScale (inputs : List (InteractionMode × ℝ)) (s : GiftState) :
    (runGift inputs s).visScale =
      inputs.foldl (fun x p => damp x (giftVisibilityTarget p.1) 3 p.2) s.visScale := by
  induction inputs generalizing s with
  | nil => rfl
  | cons p rest ih => exact ih _

/-- The progress component of the gold-particle fold is a scalar damp fold. -/
theorem runGold_progress (inputs : List (InteractionMode × ℝ)) (s : GoldParticleState) :
    (runGold inputs s).progress =
      inputs.foldl (fun x p => damp x (goldProgressTarget p.1) 2 p.2) s.progress := by
  induction inputs generalizing s with
  | nil => rfl
  | cons p rest ih => exact ih _

/-- One damp step multiplies the distance to the target by
exp(-lambda * dt). -/
theorem damp_sub_target (x y lambda dt : ℝ) :
    damp x y lambda dt - y = (x - y) * Real.exp (-(lambda * dt)) := by
  unfold damp lerp
  ring

/-- Holding the target constant, a fold of damp steps multiplies the
distance to the target by exp(-lambda * total elapsed time), exactly. -/
theorem dampRun_sub_target (y lambda : ℝ) :
    ∀ (dts : List ℝ) (v : ℝ),
      dampRun y lambda dts v - y = (v - y) * Real.exp (-(lambda * dts.sum)) := by
  intro dts
  induction dts with
  | nil => intro v; simp [dampRun]
  | cons d rest ih =>
    intro v
    have hrun : dampRun y lambda (d :: rest) v = dampRun y lambda rest (damp v y lambda d) := by
      simp [dampRun]
    rw [hrun, ih (damp v y lambda d), damp_sub_target]
    have hsplit : -(lambda * (d :: rest).sum) = -(lambda * d) + -(lambda * rest.sum) := by
      simp [List.sum_cons]
      ring
    rw [hsplit, Real.exp_add]
    ring

/-- A fold of damp steps toward a target in [0, 1], with a nonnegative
rate and nonnegative deltas, keeps a scalar inside [0, 1]. -/
theorem dampRun_mem (y lambda : ℝ) (hy0 : 0 ≤ y) (hy1 : y ≤ 1) (hlam : 0 ≤ lambda) :
    ∀ (dts : List ℝ), (∀ d ∈ dts, 0 ≤ d) →
      ∀ {v : ℝ}, 0 ≤ v → v ≤ 1 →
        0 ≤ dampRun y lambda dts v ∧ dampRun y lambda dts v ≤ 1 := by
  intro dts
  induction dts with
  | nil => intro _ v hv0 hv1; exact ⟨hv0, hv1⟩
  | cons d rest ih =>
    intro hd v hv0 hv1
    have hstep := damp_mem_unit hv0 hv1 hy0 hy1 hlam (hd d (List.mem_cons_self d rest))
    have hrun : dampRun y lambda (d :: rest) v = dampRun y lambda rest (damp v y lambda d) := by
      simp [dampRun]
    rw [hrun]
    exact ih (fun q hq => hd q (List.mem_cons_of_mem d hq)) hstep.1 hstep.2

/-- Absolute-value form of the exact error recurrence. -/
theorem abs_dampRun_sub_target (y lambda : ℝ) (dts : List ℝ) (v : ℝ) :
    |dampRun y lambda dts v - y| = |v - y| * Real.exp (-(lambda * dts.sum)) := by
  rw [dampRun_sub_target, abs_mul, abs_of_pos (Real.exp_pos _)]

/-!  Claim theorems: transition controller. -/

/-- C1: for every sequence of per-frame (mode, deltaTime) inputs with all
deltaTime nonnegative, every damp-smoothed transition scalar (progress,
imageMix, visibility) of the foliage, instanced-mesh, gift-box and
gold-particle layers that starts in [0, 1] remains in [0, 1]: the
exponential smoothing toward targets that are always 0 or 1 never
overshoots. -/
theorem C1_progress_boundedness (inputs : List (InteractionMode × ℝ))
    (hd : ∀ p ∈ inputs, 0 ≤ p.2)
    (sF : FoliageState) (sM : MorphState) (sG : GiftState) (sP : GoldParticleState)
    (hFp : 0 ≤ sF.progress ∧ sF.progress ≤ 1)
    (hFm : 0 ≤ sF.imageMix ∧ sF.imageMix ≤ 1)
    (hMp : 0 ≤ sM.progress ∧ sM.progress ≤ 1)
    (hMv : 0 ≤ sM.visibilityScale ∧ sM.visibilityScale ≤ 1)
    (hGp : 0 ≤ sG.progress ∧ sG.progress ≤ 1)
    (hGv : 0 ≤ sG.visScale ∧ sG.visScale ≤ 1)
    (hPp : 0 ≤ sP.progress ∧ sP.progress ≤ 1) :
    (0 ≤ (runFoliage inputs sF).progress ∧ (runFoliage inputs sF).progress ≤ 1) ∧
    (0 ≤ (runFoliage inputs sF).imageMix ∧ (runFoliage inputs sF).imageMix ≤ 1) ∧
    (0 ≤ (runMorph inputs sM).progress ∧ (runMorph inputs sM).progress ≤ 1) ∧
    (0 ≤ (runMorph inputs sM).visibilityScale ∧
      (runMorph inputs sM).visibilityScale ≤ 1) ∧
    (0 ≤ (runGift inputs sG).progress ∧ (runGift inputs sG).progress ≤ 1) ∧
    (0 ≤ (runGift inputs sG).visScale ∧ (runGift inputs sG).visScale ≤ 1) ∧
    (0 ≤ (runGold inputs sP).progress ∧ (runGold inputs sP).progress ≤ 1) := by
  refine ⟨?_, ?_, ?_, ?_, ?_, ?_, ?_⟩
  · rw [runFoliage_progress]
    exact foldl_damp_mem _ foliageProgressTarget_mem (by norm_num) inputs hd hFp.1 hFp.2
  · rw [runFoliage_imageMix]
    exact foldl_damp_mem _ foliageImageMixTarget_mem (by norm_num) inputs hd hFm.1 hFm.2
  · rw [runMorph_progress]
    exact foldl_damp_mem _ morphProgressTarget_mem (by norm_num) inputs hd hMp.1 hMp.2
  · rw [runMorph_visibilityScale]
    exact foldl_damp_mem _ morphVisibilityTarget_mem (by norm_num) inputs hd hMv.1 hMv.2
  · rw [runGift_progress]
    exact foldl_damp_mem _ giftProgressTarget_mem (by norm_num) inputs hd hGp.1 hGp.2
  · rw [runGift_visScale]
    exact foldl_damp_mem _ giftVisibilityTarget_mem (by norm_num) inputs hd hGv.1 hGv.2
  · rw [runGold_progress]
    exact foldl_damp_mem _ goldProgressTarget_mem (by norm_num) inputs hd hPp.1 hPp.2

/-- C1 witness: two concrete frames (TREE for 1s, then IMAGE for 0.5s)
starting from fully formed, fully visible states. -/
theorem C1_progress_boundedness_witness :
    (0 ≤ (runFoliage [(TREE, 1), (IMAGE, 0.5)] ⟨1, 0⟩).progress ∧
      (runFoliage [(TREE, 1), (IMAGE, 0.5)] ⟨1, 0⟩).progress ≤ 1) ∧
    (0 ≤ (runFoliage [(TREE, 1), (IMAGE, 0.5)] ⟨1, 0⟩).imageMix ∧
      (runFoliage [(TREE, 1), (IMAGE, 0.5)] ⟨1, 0⟩).imageMix ≤ 1) ∧
    (0 ≤ (runMorph [(TREE, 1), (IMAGE, 0.5)] ⟨1, 1⟩).progress ∧
      (runMorph [(TREE, 1), (IMAGE, 0.5)] ⟨1, 1⟩).progress ≤ 1) ∧
    (0 ≤ (runMorph [(TREE, 1), (IMAGE, 0.5)] ⟨1, 1⟩).visibilityScale ∧
      (runMorph [(TREE, 1), (IMAGE, 0.5)] ⟨1, 1⟩).visibilityScale ≤ 1) ∧
    (0 ≤ (runGift [(TREE, 1), (IMAGE, 0.5)] ⟨1, 1⟩).progress ∧
      (runGift [(TREE, 1), (IMAGE, 0.5)] ⟨1, 1⟩).progress ≤ 1) ∧
    (0 ≤ (runGift [(TREE, 1), (IMAGE, 0.5)] ⟨1, 1⟩).visScale ∧
      (runGift [(TREE, 1), (IMAGE, 0.5)] ⟨1, 1⟩).visScale ≤ 1) ∧
    (0 ≤ (runGold [(TREE, 1), (IMAGE, 0.5)] ⟨1⟩).progress ∧
      (runGold [(TREE, 1), (IMAGE, 0.5)] ⟨1⟩).progress ≤ 1) :=
  C1_progress_boundedness [(TREE, 1), (IMAGE, 0.5)]
    (by intro p hp; fin_cases hp <;> norm_num)
    ⟨1, 0⟩ ⟨1, 1⟩ ⟨1, 1⟩ ⟨1⟩
    (by norm_num) (by norm_num) (by norm_num) (by norm_num)
    (by norm_num) (by norm_num) (by norm_num)

/-- C3: THREE.MathUtils.damp(value, target, rate, deltaTime), as the
source computes it through lerp and Math.exp, is extensionally equal to
the spec update rule value' = target + (value - target) * exp(-rate * deltaTime)
for every value and target in [0, 1], rate > 0 and deltaTime ≥ 0. -/
theorem C3_damp_refines_spec (value target rate deltaTime : ℝ)
    (hv : 0 ≤ value ∧ value ≤ 1) (ht : 0 ≤ target ∧ target ≤ 1)
    (hr : 0 < rate) (hdt : 0 ≤ deltaTime) :
    damp value target rate deltaTime = specDampUpdate value target rate deltaTime := by
  unfold damp lerp specDampUpdate
  ring

/-- C3 witness: the two sides agree at value 1, target 0, rate 2,
deltaTime 1. -/
theorem C3_damp_refines_spec_witness : damp 1 0 2 1 = specDampUpdate 1 0 2 1 :=
  C3_damp_refines_spec 1 0 2 1 (by norm_num) (by norm_num) (by norm_num) (by norm_num)

/-- C5: the per-frame target mapping.  For the two-valued layers
(instanced meshes, gift boxes, gold particles) the progress target is 1
exactly when the mode is TREE (the spec's FORMED) and 0 otherwise.  For
the three-way foliage layer the progress target tracks formed-vs-scattered
(it is 0 exactly in SCATTERED mode, 1 otherwise, and IMAGE mode leaves it
at the TREE value), while the separate imageMix target is 1 exactly in
IMAGE mode and 0 otherwise. -/
theorem C5_target_mapping (m : InteractionMode) :
    (morphProgressTarget m = 1 ↔ m = TREE) ∧
    (morphProgressTarget m = 0 ↔ m ≠ TREE) ∧
    giftProgressTarget m = morphProgressTarget m ∧
    goldProgressTarget m = morphProgressTarget m ∧
    foliageProgressTarget IMAGE = foliageProgressTarget TREE ∧
    (foliageProgressTarget m = 0 ↔ m = SCATTERED) ∧
    (foliageProgressTarget m = 1 ↔ m ≠ SCATTERED) ∧
    (foliageImageMixTarget m = 1 ↔ m = IMAGE) ∧
    (foliageImageMixTarget m = 0 ↔ m ≠ IMAGE) := by
  cases m <;>
    simp [morphProgressTarget, giftProgressTarget, goldProgressTarget,
      foliageProgressTarget, foliageImageMixTarget]

/-- C4 counterexample: the spiral-ribbon bead layer (GoldParticleLayer)
has no visibility scalar.  At the concrete input mode = IMAGE,
deltaTime = 1000, state progress = 1, its per-frame update coincides with
the SCATTERED-mode update (the layer cannot distinguish IMAGE from
SCATTERED), and the visibility it applies to its points is 1, not a
scalar being driven to the target 0 the claim requires. -/
theorem C4_gold_layer_counterexample :
    goldParticleUseFrame IMAGE 1000 ⟨1⟩ = goldParticleUseFrame SCATTERED 1000 ⟨1⟩ ∧
    goldParticleVisibilityFactor IMAGE = 1 ∧
    goldParticleVisibilityFactor IMAGE ≠ 0 := by
  refine ⟨rfl, rfl, ?_⟩
  norm_num [goldParticleVisibilityFactor]

/-- C4 amended: the visibility target is 0 exactly when the mode is IMAGE
(and 1 otherwise) for the instanced ornament and light layers
(MorphingInstancedMesh) and the gift boxes; the spiral-ribbon bead layer
(GoldParticleLayer) has no visibility scalar at all — its update depends
on the mode only through the progress target, and the visibility it
applies is constantly 1. -/
theorem C4_visibility_target_mapping (m : InteractionMode) (dt : ℝ)
    (s : GoldParticleState) :
    (morphVisibilityTarget m = 0 ↔ m = IMAGE) ∧
    (morphVisibilityTarget m = 1 ↔ m ≠ IMAGE) ∧
    (giftVisibilityTarget m = 0 ↔ m = IMAGE) ∧
    (giftVisibilityTarget m = 1 ↔ m ≠ IMAGE) ∧
    goldParticleVisibilityFactor m = 1 ∧
    goldParticleUseFrame m dt s =
      goldParticleUseFrame (if m = TREE then TREE else SCATTERED) dt s := by
  cases m <;>
    simp [morphVisibilityTarget, giftVisibilityTarget,
      goldParticleVisibilityFactor, goldParticleUseFrame, goldProgressTarget]

/-- C9: holding the mode constant, the damp-based update over any
sequence of nonnegative deltaTime values leaves a remaining error of at
most the initial error times exp(-rate * total time) — so every scalar is
driven within any epsilon of its target once the total time is large
enough.  Stated for the foliage progress scalar under its rate 2, for an
arbitrary (target, rate) damp fold, and for the FORMED -> SCATTERED ->
FORMED round trip, which returns progress to within exp(-2 * total) of 1. -/
theorem C9_convergence (m : InteractionMode) (s : FoliageState)
    (dts dts2 : List ℝ) (hd : ∀ d ∈ dts, 0 ≤ d) (hd2 : ∀ d ∈ dts2, 0 ≤ d)
    (hp : 0 ≤ s.progress ∧ s.progress ≤ 1) :
    |(runFoliage (dts.map fun d => (m, d)) s).progress - foliageProgressTarget m|
        ≤ |s.progress - foliageProgressTarget m| * Real.exp (-(2 * dts.sum)) ∧
    (∀ target lambda v : ℝ, |dampRun target lambda dts v - target|
        ≤ |v - target| * Real.exp (-(lambda * dts.sum))) ∧
    |dampRun 1 2 dts2 (dampRun 0 2 dts s.progress) - 1|
        ≤ Real.exp (-(2 * dts2.sum)) := by
  have hlink : (runFoliage (dts.map fun d => (m, d)) s).progress
      = dampRun (foliageProgressTarget m) 2 dts s.progress := by
    rw [runFoliage_progress]
    simp [dampRun, List.foldl_map]
  refine ⟨?_, ?_, ?_⟩
  · rw [hlink]
    exact le_of_eq (abs_dampRun_sub_target _ _ _ _)
  · intro target lambda v
    exact le_of_eq (abs_dampRun_sub_target target lambda dts v)
  · have hmid := dampRun_mem 0 2 le_rfl zero_le_one (by norm_num) dts hd hp.1 hp.2
    have h1 : |dampRun 0 2 dts s.progress - 1| ≤ 1 := by
      rw [abs_le]
      constructor <;> nlinarith [hmid.1, hmid.2]
    calc |dampRun 1 2 dts2 (dampRun 0 2 dts s.progress) - 1|
        = |dampRun 0 2 dts s.progress - 1| * Real.exp (-(2 * dts2.sum)) :=
          abs_dampRun_sub_target 1 2 dts2 _
      _ ≤ 1 * Real.exp (-(2 * dts2.sum)) := by
          exact mul_le_mul_of_nonneg_right h1 (le_of_lt (Real.exp_pos _))
      _ = Real.exp (-(2 * dts2.sum)) := one_mul _

/-- C9 witness: one SCATTERED frame of 1s from progress 1, then one
TREE frame of 2s. -/
theorem C9_convergence_witness :
    |(runFoliage ([1].map fun d => (SCATTERED, d)) ⟨1, 0⟩).progress
        - foliageProgressTarget SCATTERED|
      ≤ |(1 : ℝ) - foliageProgressTarget SCATTERED| * Real.exp (-(2 * ([1] : List ℝ).sum)) ∧
    (∀ target lambda v : ℝ, |dampRun target lambda [1] v - target|
        ≤ |v - target| * Real.exp (-(lambda * ([1] : List ℝ).sum))) ∧
    |dampRun 1 2 [2] (dampRun 0 2 [1] (1 : ℝ)) - 1| ≤ Real.exp (-(2 * ([2] : List ℝ).sum)) := by
  have h := C9_convergence SCATTERED ⟨1, 0⟩ [1] [2]
    (by intro d hdm; fin_cases hdm <;> norm_num)
    (by intro d hdm; fin_cases hdm <;> norm_num)
    (by norm_num)
  exact ⟨h.1, h.2.1, by simpa using h.2.2⟩

/-- C8 (evaluation of the code at the failing input): the per-frame update
applies THREE.MathUtils.damp to the raw deltaTime with no finiteness
guard, so a NaN deltaTime (mode TREE, progress 1, imageMix 0) makes both
transition scalars NaN — nothing is clamped or skipped. -/
theorem C8_nan_delta_propagates :
    foliageUseFrameFP TREE none (some 1, some 0) = (none, none) := rfl

/-!  Claim theorems: image candidate extractor and buffer plumbing. -/

/-- Each sampled output point is one (x, y, z) triple. -/
theorem samplePoint_length (img : ImageData) (cands : List (ℕ × ℕ))
    (rand jit : ℕ → ℚ) (i : ℕ) : (samplePoint img cands rand jit i).length = 3 := rfl

/-- The sampling loop produces exactly 3 * targetCount entries. -/
theorem samples_length (img : ImageData) (cands : List (ℕ × ℕ))
    (rand jit : ℕ → ℚ) (targetCount : ℕ) :
    ((List.range targetCount).flatMap (samplePoint img cands rand jit)).length
      = 3 * targetCount := by
  rw [List.length_flatMap]
  have hfun : (List.length ∘ samplePoint img cands rand jit) = fun _ => 3 := by
    funext i
    exact samplePoint_length img cands rand jit i
  rw [hfun, List.map_const', List.sum_replicate, List.length_range,
    smul_eq_mul, Nat.mul_comm]

/-- Whenever the promise settles, the resolved buffer has length exactly
3 * targetCount. -/
theorem imageToPoints_some_length (decoded : Option SourceImage)
    (rasterData : ℕ → ℕ) (ctxOk : Bool) (targetCount : ℕ)
    (rand jit : ℕ → ℚ) (buf : List ℚ)
    (hbuf : imageToPoints decoded rasterData ctxOk targetCount rand jit = some buf) :
    buf.length = 3 * targetCount := by
  cases decoded with
  | none =>
    simp only [imageToPoints, Option.some.injEq] at hbuf
    rw [← hbuf]
    simp [Nat.mul_comm]
  | some src =>
    by_cases hc : ctxOk = false
    · simp only [imageToPoints, hc, if_true, Option.some.injEq] at hbuf
      rw [← hbuf]
      simp [Nat.mul_comm]
    · by_cases hh : workingHeight src = 0
      · simp [imageToPoints, hc, hh] at hbuf
      · by_cases hcand : (candidateList
            { width := 400, height := workingHeight src, data := rasterData }).length = 0
        · simp [imageToPoints, hc, hh, hcand] at hbuf
          rw [← hbuf]
          simp [Nat.mul_comm]
        · simp [imageToPoints, hc, hh, hcand] at hbuf
          rw [← hbuf]
          exact samples_length _ _ rand jit targetCount

/-- C2 counterexample: a validly decoded 500 x 1 image (natural width
greater than 400 times the natural height) floors the working height to
400 * 1 / 500 = 0, so `ctx.getImageData(0, 0, 400, 0)` throws
IndexSizeError inside the onload handler and the promise never settles:
at this input imageToPoints resolves no buffer at all — in particular it
does not resolve a Float32Array of length 3 * targetCount as the claim
requires of every input. -/
theorem C2_throwing_input_counterexample :
    imageToPoints (some ⟨500, 1⟩) (fun _ => 0) true 2 (fun _ => 0) (fun _ => 0)
        = none ∧
    workingHeight ⟨500, 1⟩ = 0 := ⟨rfl, rfl⟩

/-- C2 amended: decode failure and a null 2d context resolve the all-zero
buffer of length 3 * targetCount; every buffer the promise ever resolves
has length exactly 3 * targetCount; whenever the floored working height
400 * naturalHeight / naturalWidth is positive the promise settles with a
buffer of that length, all-zero when the candidate scan finds nothing;
but a decoded image whose working height floors to 0 (naturalWidth
greater than 400 * naturalHeight) makes getImageData throw inside the
onload handler and the promise never settles. -/
theorem C2_extractor_shape (decoded : Option SourceImage) (rasterData : ℕ → ℕ)
    (ctxOk : Bool) (targetCount : ℕ) (rand jit : ℕ → ℚ) :
    (decoded = none →
      imageToPoints decoded rasterData ctxOk targetCount rand jit =
        some (List.replicate (targetCount * 3) 0)) ∧
    (∀ src, decoded = some src → ctxOk = false →
      imageToPoints decoded rasterData ctxOk targetCount rand jit =
        some (List.replicate (targetCount * 3) 0)) ∧
    (∀ buf, imageToPoints decoded rasterData ctxOk targetCount rand jit = some buf →
      buf.length = 3 * targetCount) ∧
    (∀ src, decoded = some src → workingHeight src ≠ 0 →
      ∃ buf, imageToPoints decoded rasterData ctxOk targetCount rand jit = some buf ∧
        buf.length = 3 * targetCount) ∧
    (∀ src, decoded = some src → ctxOk = true → workingHeight src = 0 →
      imageToPoints decoded rasterData ctxOk targetCount rand jit = none) ∧
    (∀ src, decoded = some src → ctxOk = true → workingHeight src ≠ 0 →
      candidateList { width := 400, height := workingHeight src, data := rasterData }
          = [] →
      imageToPoints decoded rasterData ctxOk targetCount rand jit =
        some (List.replicate (targetCount * 3) 0)) := by
  refine ⟨?_, ?_, ?_, ?_, ?_, ?_⟩
  · intro h
    subst h
    rfl
  · intro src h hctx
    subst h
    subst hctx
    rfl
  · intro buf hbuf
    exact imageToPoints_some_length decoded rasterData ctxOk targetCount rand jit buf hbuf
  · intro src h hne
    subst h
    have hex : ∃ buf,
        imageToPoints (some src) rasterData ctxOk targetCount rand jit = some buf := by
      by_cases hc : ctxOk = false
      · exact ⟨List.replicate (targetCount * 3) 0, by simp [imageToPoints, hc]⟩
      · by_cases hcand : (candidateList
            { width := 400, height := workingHeight src, data := rasterData }).length = 0
        · exact ⟨List.replicate (targetCount * 3) 0,
            by simp [imageToPoints, hc, hne, hcand]⟩
        · exact ⟨(List.range targetCount).flatMap
            (samplePoint { width := 400, height := workingHeight src, data := rasterData }
              (candidateList { width := 400, height := workingHeight src, data := rasterData })
              rand jit),
            by simp [imageToPoints, hc, hne, hcand]⟩
    obtain ⟨buf, hbuf⟩ := hex
    exact ⟨buf, hbuf,
      imageToPoints_some_length (some src) rasterData ctxOk targetCount rand jit buf hbuf⟩
  · intro src h hctx hh
    subst h
    subst hctx
    simp [imageToPoints, hh]
  · intro src h hctx hh hcand
    subst h
    subst hctx
    have hlen : (candidateList
        { width := 400, height := workingHeight src, data := rasterData }).length = 0 := by
      rw [hcand]
      rfl
    simp [imageToPoints, hh, hlen]

/-- C2 witness: a failed decode with targetCount 2 resolves six zeros,
and a decoded 400 x 400 image (working height 400, positive) settles with
a buffer of length 3 * 2. -/
theorem C2_extractor_shape_witness :
    imageToPoints none (fun _ => 0) true 2 (fun _ => 0) (fun _ => 0) =
      some (List.replicate (2 * 3) 0) ∧
    (∃ buf, imageToPoints (some ⟨400, 400⟩) (fun _ => 0) true 2 (fun _ => 0) (fun _ => 0)
        = some buf ∧ buf.length = 3 * 2) := by
  have h1 := C2_extractor_shape none (fun _ => 0) true 2 (fun _ => 0) (fun _ => 0)
  have h2 := C2_extractor_shape (some ⟨400, 400⟩) (fun _ => 0) true 2
    (fun _ => 0) (fun _ => 0)
  exact ⟨h1.1 rfl, h2.2.2.2.1 ⟨400, 400⟩ rfl (by decide)⟩

/-- C6: a supplied ImagePointSet replaces the foliage layer's image
attribute only when its length is exactly 3 * N for the layer's particle
count N; on a length mismatch, and when no buffer is supplied, the
attribute stays the fallback tree-configuration positions (and the total
install function cannot crash). -/
theorem C6_image_buffer_guard (ip treePositions : List ℚ) (count : ℕ) :
    (ip.length = 3 * count →
      foliageImageAttr (some ip) treePositions count = ip) ∧
    (ip.length ≠ 3 * count →
      foliageImageAttr (some ip) treePositions count = treePositions) ∧
    foliageImageAttr none treePositions count = treePositions := by
  refine ⟨fun h => ?_, fun h => ?_, rfl⟩
  · have heq : ip.length = count * 3 := by rw [Nat.mul_comm]; exact h
    simp [foliageImageAttr, heq]
  · have hne : ¬ ip.length = count * 3 := by rw [Nat.mul_comm]; exact h
    simp [foliageImageAttr, hne]

/-- C6 witness: a 3-entry buffer replaces the attribute of a 1-particle
layer, while the same buffer leaves a 2-particle layer (expecting 6
entries) on its fallback. -/
theorem C6_image_buffer_guard_witness :
    foliageImageAttr (some [1, 2, 3]) [9, 9, 9] 1 = [1, 2, 3] ∧
    foliageImageAttr (some [1, 2, 3]) [9, 9, 9, 9, 9, 9] 2 = [9, 9, 9, 9, 9, 9] :=
  ⟨(C6_image_buffer_guard [1, 2, 3] [9, 9, 9] 1).1 (by norm_num),
   (C6_image_buffer_guard [1, 2, 3] [9, 9, 9, 9, 9, 9] 2).2.1 (by norm_num)⟩

/-- Boolean candidate test unfolded to its arithmetic characterisation. -/
theorem isCandidate_iff (img : ImageData) (x y : ℕ) :
    isCandidate img x y = true ↔
      50 ≤ getAlpha img x y ∧
        (getLum img x y < 180 ∨ 15 < |getLum img x y - getLum img (x + 1) y| ∨
          15 < |getLum img x y - getLum img x (y + 1)|) := by
  unfold isCandidate
  by_cases h : getAlpha img x y < 50
  · simp [h, Nat.not_le.mpr h]
  · simp [h, Nat.not_lt.mp h]

/-- Membership in the scanned candidate list: exactly the in-range pixels
the boolean test accepts. -/
theorem mem_candidateList_iff (img : ImageData) (x y : ℕ) :
    (x, y) ∈ candidateList img ↔
      x < img.width ∧ y < img.height ∧ isCandidate img x y = true := by
  unfold candidateList
  rw [List.mem_flatMap]
  constructor
  · rintro ⟨b, hb, hmem⟩
    rw [List.mem_filterMap] at hmem
    obtain ⟨a, ha, hsome⟩ := hmem
    by_cases hc : isCandidate img a b
    · rw [if_pos hc] at hsome
      obtain ⟨rfl, rfl⟩ : a = x ∧ b = y := by
        have := Option.some.inj hsome
        exact ⟨congrArg Prod.fst this, congrArg Prod.snd this⟩
      exact ⟨List.mem_range.mp ha, List.mem_range.mp hb, hc⟩
    · rw [if_neg hc] at hsome
      exact absurd hsome (Option.noConfusion)
  · rintro ⟨hx, hy, hc⟩
    refine ⟨y, List.mem_range.mpr hy, ?_⟩
    rw [List.mem_filterMap]
    exact ⟨x, List.mem_range.mpr hx, by rw [if_pos hc]⟩

/-- C7: a pixel of the downsampled raster is a candidate iff it is in
range, its alpha is at least the visibility threshold 50, and either its
weighted luminance 0.299R + 0.587G + 0.114B is below the dark-ink
threshold 180 or it differs from the right or bottom neighbour by more
than the edge threshold 15; a pixel with alpha below the threshold is
never a candidate; and the two-pixel hard dark/light boundary image
yields a non-empty candidate set although both its luminances are at or
above the dark-ink threshold. -/
theorem C7_candidate_classification (img : ImageData) (x y : ℕ) :
    ((x, y) ∈ candidateList img ↔
      x < img.width ∧ y < img.height ∧ 50 ≤ getAlpha img x y ∧
        (getLum img x y < 180 ∨ 15 < |getLum img x y - getLum img (x + 1) y| ∨
          15 < |getLum img x y - getLum img x (y + 1)|)) ∧
    (getAlpha img x y < 50 → (x, y) ∉ candidateList img) ∧
    candidateList checkerboardImg ≠ [] ∧
    180 ≤ getLum checkerboardImg 0 0 ∧ 180 ≤ getLum checkerboardImg 1 0 := by
  have hiff := mem_candidateList_iff img x y
  refine ⟨?_, ?_, ?_, ?_, ?_⟩
  · rw [hiff, isCandidate_iff]
  · intro hlt hmem
    have hc := (hiff.mp hmem).2.2
    rw [isCandidate_iff] at hc
    exact absurd hc.1 (Nat.not_le.mpr hlt)
  · have hlist : candidateList checkerboardImg = [(0, 0), (1, 0)] := by
      norm_num [candidateList, List.range_succ, List.filterMap_cons,
        isCandidate, getLum, getAlpha, checkerboardImg]
    rw [hlist]
    simp
  · norm_num [getLum, checkerboardImg]
  · norm_num [getLum, checkerboardImg]

/-- C7 witness: the out-of-range pixel (5, 5) of the boundary image reads
alpha 0 and is indeed not a candidate, while the candidate set of that
image is non-empty. -/
theorem C7_candidate_classification_witness :
    (5, 5) ∉ candidateList checkerboardImg ∧
    candidateList checkerboardImg ≠ [] :=
  ⟨(C7_candidate_classification checkerboardImg 5 5).2.1
      (by norm_num [getAlpha, checkerboardImg]),
   (C7_candidate_classification checkerboardImg 5 5).2.2.1⟩

/-- A non-zero getD read exhibits a non-zero element of the list. -/
theorem getD_ne_zero_mem (l : List ℚ) (j : ℕ) (h : l.getD j 0 ≠ 0) :
    ∃ x ∈ l, x ≠ 0 := by
  by_cases hj : j < l.length
  · refine ⟨l.getD j 0, ?_, h⟩
    rw [List.getD_eq_getElem l 0 hj]
    exact List.getElem_mem hj
  · rw [List.getD_eq_default l 0 (Nat.le_of_not_lt hj)] at h
    exact absurd rfl h

/-- The stride-3 validity scan reports true exactly when the buffer has a
non-zero entry. -/
theorem hasValidPoints_iff (points : List ℚ) :
    hasValidPoints points = true ↔ ∃ x ∈ points, x ≠ 0 := by
  unfold hasValidPoints
  rw [List.any_eq_true]
  constructor
  · rintro ⟨i, _, hcond⟩
    simp only [Bool.and_eq_true, Bool.or_eq_true, decide_eq_true_eq] at hcond
    rcases hcond.2 with (h | h) | h
    exacts [getD_ne_zero_mem _ _ h, getD_ne_zero_mem _ _ h, getD_ne_zero_mem _ _ h]
  · rintro ⟨x, hx, hne⟩
    obtain ⟨j, hj, rfl⟩ := List.mem_iff_getElem.mp hx
    have hget : points.getD j 0 ≠ 0 := by
      rw [List.getD_eq_getElem points 0 hj]
      exact hne
    refine ⟨3 * (j / 3), List.mem_range.mpr ?_, ?_⟩
    · have := Nat.div_add_mod j 3
      omega
    · simp only [Bool.and_eq_true, Bool.or_eq_true, decide_eq_true_eq]
      refine ⟨Nat.mul_mod_right 3 _, ?_⟩
      have hdm := Nat.div_add_mod j 3
      have hr : j % 3 = 0 ∨ j % 3 = 1 ∨ j % 3 = 2 := by omega
      rcases hr with h0 | h1 | h2
      · left; left
        have hj3 : 3 * (j / 3) = j := by omega
        rw [hj3]
        exact hget
      · left; right
        have hj3 : 3 * (j / 3) + 1 = j := by omega
        rw [hj3]
        exact hget
      · right
        have hj3 : 3 * (j / 3) + 2 = j := by omega
        rw [hj3]
        exact hget

/-- C10: App installs an extraction result only when the stride-3 scan
finds a non-zero coordinate.  So the installed imagePoints value is
always either absent or a buffer with a non-zero entry, and an all-zero
extraction result (decode failure or no candidates) never replaces a
previously installed point set. -/
theorem C10_install_invariant (current : Option (List ℚ)) (points : List ℚ)
    (hcur : ∀ p, current = some p → ∃ x ∈ p, x ≠ 0) :
    (∀ p, installImagePoints current points = some p → ∃ x ∈ p, x ≠ 0) ∧
    ((∀ x ∈ points, x = 0) → installImagePoints current points = current) := by
  constructor
  · intro p hp
    unfold installImagePoints at hp
    by_cases h : hasValidPoints points = true
    · rw [if_pos h] at hp
      rw [← Option.some.inj hp]
      exact (hasValidPoints_iff points).mp h
    · rw [if_neg h] at hp
      exact hcur p hp
  · intro hz
    unfold installImagePoints
    have h : ¬ hasValidPoints points = true := by
      intro htrue
      obtain ⟨x, hx, hne⟩ := (hasValidPoints_iff points).mp htrue
      exact hne (hz x hx)
    rw [if_neg h]

/-- C10 witness: an installed buffer [5] survives an all-zero extraction
result [0, 0, 0], and the resulting install still satisfies the
non-zero-entry invariant. -/
theorem C10_install_invariant_witness :
    (∀ p, installImagePoints (some [5]) [0, 0, 0] = some p → ∃ x ∈ p, x ≠ 0) ∧
    installImagePoints (some [5]) [0, 0, 0] = some [5] := by
  have h := C10_install_invariant (some [5]) [0, 0, 0]
    (by
      intro p hp
      rw [← Option.some.inj hp]
      exact ⟨5, by simp, by norm_num⟩)
  exact ⟨h.1, h.2 (by intro x hx; fin_cases hx <;> rfl)⟩
